import Mathlib

/-!
Verification of the coverage-counting path renderer
(`src/gpu/ccpr/GrCoverageCountingPathRenderer.cpp`) and the hardware-buffer
image generator (`src/gpu/GrAHardwareBufferImageGenerator.cpp`).

The embedding models Skia scalars (`SkScalar`) as rationals and machine
integers as `Int`/`Nat`; rectangle and matrix operations are translated
directly from Skia's `SkIRect`/`SkRect`/`SkMatrix` semantics as used by the
two source files.  External collaborators that are not part of the two
source files (the path boolean-operations engine `SkPathOps`, the atlas
rectangle packer `GrCCPRAtlas`, the coverage-op builder
`GrCCPRCoverageOpsBuilder`) are modelled from the specification, each
marked as such in its doc comment.
-/

/-- Integer rectangle, as Skia's `SkIRect` (left, top, right, bottom). -/
structure SkIRect where
  left : Int
  top : Int
  right : Int
  bottom : Int
deriving DecidableEq, Repr

def SkIRect.width (x : SkIRect) : Int := x.right - x.left

def SkIRect.height (x : SkIRect) : Int := x.bottom - x.top

/-- `SkIRect::isEmpty()`: a rect is empty when left >= right or top >= bottom. -/
def SkIRect.isEmpty (x : SkIRect) : Bool :=
  decide (x.right ≤ x.left) || decide (x.bottom ≤ x.top)

/-- `SkIRect::MakeWH(w, h)`. -/
def SkIRect.MakeWH (w h : Int) : SkIRect := ⟨0, 0, w, h⟩

/-- `SkIRect::contains(const SkIRect&)`: false if either rect is empty,
otherwise edge-wise containment. -/
def SkIRect.contains (a b : SkIRect) : Bool :=
  !b.isEmpty && !a.isEmpty &&
    decide (a.left ≤ b.left) && decide (a.top ≤ b.top) &&
    decide (b.right ≤ a.right) && decide (b.bottom ≤ a.bottom)

/-- `SkIRect::intersect(a, b)`: the intersection when it is nonempty,
`none` (the C++ returns false and leaves the receiver alone) otherwise. -/
def SkIRect.intersect (a b : SkIRect) : Option SkIRect :=
  let l := max a.left b.left
  let t := max a.top b.top
  let r := min a.right b.right
  let bo := min a.bottom b.bottom
  if l < r ∧ t < bo then some ⟨l, t, r, bo⟩ else none

/-- `SkIRect::join`: bounding-box union; an empty addend is ignored and an
empty receiver is replaced. -/
def SkIRect.join (a b : SkIRect) : SkIRect :=
  if b.isEmpty then a
  else if a.isEmpty then b
  else ⟨min a.left b.left, min a.top b.top, max a.right b.right, max a.bottom b.bottom⟩

/-- Scalar rectangle, as Skia's `SkRect` over rational "floats". -/
structure SkRect where
  left : ℚ
  top : ℚ
  right : ℚ
  bottom : ℚ
deriving DecidableEq, Repr

def SkRect.width (x : SkRect) : ℚ := x.right - x.left

def SkRect.height (x : SkRect) : ℚ := x.bottom - x.top

/-- `SkRect::Make(const SkIRect&)`. -/
def SkRect.Make (ir : SkIRect) : SkRect := ⟨ir.left, ir.top, ir.right, ir.bottom⟩

/-- `SkRect::roundOut`: floor the left/top edges and ceil the right/bottom edges. -/
def SkRect.roundOut (x : SkRect) : SkIRect :=
  ⟨⌊x.left⌋, ⌊x.top⌋, ⌈x.right⌉, ⌈x.bottom⌉⟩

/-- `SkRect::joinPossiblyEmptyRect` (used by `GrOp::joinBounds`): plain
min/max union with no emptiness checks. -/
def SkRect.joinPossiblyEmptyRect (a b : SkRect) : SkRect :=
  ⟨min a.left b.left, min a.top b.top, max a.right b.right, max a.bottom b.bottom⟩

/-- Bounding box of a nonempty list of points (head given separately). -/
def qBBoxAux (p : ℚ × ℚ) : List (ℚ × ℚ) → SkRect
  | [] => ⟨p.1, p.2, p.1, p.2⟩
  | q :: rest =>
    let r := qBBoxAux q rest
    ⟨min p.1 r.left, min p.2 r.top, max p.1 r.right, max p.2 r.bottom⟩

/-- Bounding box of a list of points; `(0,0,0,0)` for the empty list, exactly
like `SkPath::getBounds()` on an empty path. -/
def qBBox : List (ℚ × ℚ) → SkRect
  | [] => ⟨0, 0, 0, 0⟩
  | p :: rest => qBBoxAux p rest

/-- Affine `SkMatrix` (the CCPR code paths in scope reject perspective
before any matrix is applied), plus the perspective flag that
`onCanDrawPath` queries. -/
structure SkMatrix where
  scaleX : ℚ
  skewX : ℚ
  transX : ℚ
  skewY : ℚ
  scaleY : ℚ
  transY : ℚ
  perspective : Bool
deriving DecidableEq, Repr

def SkMatrix.hasPerspective (m : SkMatrix) : Bool := m.perspective

/-- `SkMatrix::setIdentity()`. -/
def SkMatrix.identity : SkMatrix := ⟨1, 0, 0, 0, 1, 0, false⟩

def SkMatrix.mapPoint (m : SkMatrix) (p : ℚ × ℚ) : ℚ × ℚ :=
  (m.scaleX * p.1 + m.skewX * p.2 + m.transX,
   m.skewY * p.1 + m.scaleY * p.2 + m.transY)

/-- `SkMatrix::mapRect` for affine matrices: map the four corners and take
their bounding box. -/
def SkMatrix.mapRect (m : SkMatrix) (x : SkRect) : SkRect :=
  qBBox [m.mapPoint (x.left, x.top), m.mapPoint (x.right, x.top),
         m.mapPoint (x.right, x.bottom), m.mapPoint (x.left, x.bottom)]

/-- `SkPath`, modelled by the observations the two source files make of it:
the control points determining `getBounds()`, the verb count, the conic
weight count, the fill type, and a validity bit (`valid = false` models a
path holding NaN/infinite coordinates, the condition under which the
SkPathOps boolean operation fails). -/
structure SkPath where
  points : List (ℚ × ℚ)
  verbs : Nat
  conicWeightCnt : Nat
  fillType : Nat
  valid : Bool
deriving DecidableEq, Repr

/-- `SkPath::getBounds()`: bounding box of the control points. -/
def SkPath.getBounds (p : SkPath) : SkRect := qBBox p.points

def SkPath.countVerbs (p : SkPath) : Nat := p.verbs

def SkPath.countPoints (p : SkPath) : Nat := p.points.length

/-- `SkPath::transform` by an (affine) matrix. -/
def SkPath.transform (p : SkPath) (m : SkMatrix) : SkPath :=
  { p with points := p.points.map m.mapPoint }

/-- The freshly-reset path that `crop_path` substitutes on failure
(`out->reset()`). -/
def SkPath.empty : SkPath := ⟨[], 0, 0, 0, true⟩

/-- Clamp a point into a rectangle (coordinate-wise). -/
def clampToRect (r : SkRect) (p : ℚ × ℚ) : ℚ × ℚ :=
  (min (max p.1 r.left) r.right, min (max p.2 r.top) r.bottom)

/-- Modelled from the spec: the path boolean-operations collaborator
(`SkPathOps`' `Op` with `kIntersect_SkPathOp`), which is not under `src/`.
Per the spec it "intersect[s] two paths" and "can fail if the PathOps
encounter NaN or infinities".  In both call sites the first operand is a
rectangle path, so the intersection is modelled by clamping the second
path's sample points into the first path's bounds; failure is modelled by
the validity bit. -/
def opIntersect (a b : SkPath) : Option SkPath :=
  if a.valid && b.valid then
    some { points := b.points.map (clampToRect a.getBounds),
           verbs := b.verbs, conicWeightCnt := b.conicWeightCnt,
           fillType := b.fillType, valid := true }
  else none

/-- The rectangle path built by `crop_path` via
`cropPath.addRect(SkRect::Make(cropbox))`. -/
def rectPathOf (cropbox : SkIRect) : SkPath :=
  let r := SkRect.Make cropbox
  { points := [(r.left, r.top), (r.right, r.top), (r.right, r.bottom), (r.left, r.bottom)],
    verbs := 5, conicWeightCnt := 0, fillType := 0, valid := true }

/-- `crop_path` (lines 30-37): intersect the crop rectangle with the path;
on failure reset the output to the empty path. -/
def crop_path (path : SkPath) (cropbox : SkIRect) : SkPath :=
  match opIntersect (rectPathOf cropbox) path with
  | some out => out
  | none => SkPath.empty

/-! ### Atlas placement (placeParsedPathInAtlas, lines 471-507) -/

/-- `GrCCPRCoverageOpsBuilder::ScissorMode`. -/
inductive ScissorMode where
  | kNonScissored
  | kScissored
deriving DecidableEq, Repr

/-- The clip/path decision at the top of `placeParsedPathInAtlas`
(lines 480-490): containment means non-scissored placement at the original
path bounds, a nonempty intersection means scissored placement at the
intersected bounds, an empty intersection rejects the path. -/
def atlasPlacement (clipIBounds pathIBounds : SkIRect) :
    Option (ScissorMode × SkIRect) :=
  if clipIBounds.contains pathIBounds then
    some (ScissorMode.kNonScissored, pathIBounds)
  else
    match SkIRect.intersect clipIBounds pathIBounds with
    | some clipped => some (ScissorMode.kScissored, clipped)
    | none => none

/-- Calls `placeParsedPathInAtlas` makes on the `GrCCPRCoverageOpsBuilder`. -/
inductive BuilderEvent where
  | discardParsedPath
  | emitOp (drawBounds : SkIRect)
  | saveParsedPath (mode : ScissorMode) (clippedBounds : SkIRect) (offX offY : Int)
deriving DecidableEq, Repr

/-- Modelled from the spec: one `GrCCPRAtlas` (the atlas rectangle packer is
not under `src/`).  `addRectResult` is the packer's answer to the next
`addRect` call on this atlas (`none` = "out of room and can't grow any
bigger"); `drawBounds` is its running draw-bounds rectangle. -/
structure AtlasM where
  addRectResult : Option (Int × Int)
  drawBounds : SkIRect
deriving DecidableEq, Repr

/-- Result of one `placeParsedPathInAtlas` call: the index (into the updated
atlas list) of the atlas used, or `none` for a rejected placement, the
builder calls made, and the number of atlases afterwards. -/
structure PlaceOutcome where
  atlas : Option Nat
  events : List BuilderEvent
  atlasCount : Nat
deriving DecidableEq, Repr

/-- `GrCoverageCountingPathRenderer::placeParsedPathInAtlas` (lines 471-507).
A fresh atlas always accepts its first rectangle (the code ignores the
return value of `addRect` on a just-created atlas sized to fit); `freshLoc`
is the location such a first placement returns. -/
def placeParsedPathInAtlas (atlases : List AtlasM) (freshLoc : Int × Int)
    (clipIBounds pathIBounds : SkIRect) : PlaceOutcome :=
  match atlasPlacement clipIBounds pathIBounds with
  | none => ⟨none, [BuilderEvent.discardParsedPath], atlases.length⟩
  | some (mode, clipped) =>
    match atlases.getLast? with
    | some last =>
      match last.addRectResult with
      | some loc =>
        let offX := loc.1 - clipped.left
        let offY := loc.2 - clipped.top
        ⟨some (atlases.length - 1),
         [BuilderEvent.saveParsedPath mode clipped offX offY], atlases.length⟩
      | none =>
        let offX := freshLoc.1 - clipped.left
        let offY := freshLoc.2 - clipped.top
        ⟨some atlases.length,
         [BuilderEvent.emitOp last.drawBounds,
          BuilderEvent.saveParsedPath mode clipped offX offY], atlases.length + 1⟩
    | none =>
      let offX := freshLoc.1 - clipped.left
      let offY := freshLoc.2 - clipped.top
      ⟨some 0, [BuilderEvent.saveParsedPath mode clipped offX offY], 1⟩

/-- The (mode, clipped bounds) pairs passed to `saveParsedPath` by a call. -/
def PlaceOutcome.savedParams (o : PlaceOutcome) : List (ScissorMode × SkIRect) :=
  o.events.filterMap fun e =>
    match e with
    | BuilderEvent.saveParsedPath m b _ _ => some (m, b)
    | _ => none

/-! ### DrawPathsOp construction (lines 108-143) -/

/-- `kPathCropThreshold = 1 << 16` (line 28). -/
def kPathCropThreshold : ℚ := 65536

/-- `GrColor`. -/
abbrev GrColor := Nat

/-- `CCPR::DrawPathsOp::SingleDraw`, the fields written by the constructor. -/
structure SingleDraw where
  fPath : SkPath
  fMatrix : SkMatrix
  fClipIBounds : SkIRect
  fColor : GrColor
deriving DecidableEq, Repr

/-- The head `SingleDraw` computed by the `DrawPathsOp` constructor
(lines 108-143): paths whose mapped device bounds exceed
`kPathCropThreshold` in either dimension are transformed into device space,
cropped to the conservative clip bounds, and stored with an identity
matrix; all other paths are stored untouched with their view matrix. -/
def DrawPathsOp.initHeadDraw (shape : SkPath) (viewMatrix : SkMatrix)
    (clipIBounds : SkIRect) (color : GrColor) : SingleDraw :=
  let devBounds := viewMatrix.mapRect shape.getBounds
  if max devBounds.height devBounds.width > kPathCropThreshold then
    let path := shape.transform viewMatrix
    { fPath := crop_path path clipIBounds, fMatrix := SkMatrix.identity,
      fClipIBounds := clipIBounds, fColor := color }
  else
    { fPath := shape, fMatrix := viewMatrix,
      fClipIBounds := clipIBounds, fColor := color }

/-! ### DrawPathsOp batching (lines 166-189) -/

/-- `CCPR::DrawPathsOp`, the fields `onCombineIfPossible` reads and writes.
`fHeadDraw`/`fTailDraws` model the intrusive singly-linked `SingleDraw`
list (head stored inline, tail spliced on merge). -/
structure DrawPathsOp where
  fSRGBFlags : Nat
  fProcessors : Nat
  fHeadDraw : SingleDraw
  fTailDraws : List SingleDraw
  fBounds : SkRect
  fInstanceCount : Nat
deriving DecidableEq, Repr

/-- The op's `SingleDraw` list, in order. -/
def DrawPathsOp.draws (op : DrawPathsOp) : List SingleDraw :=
  op.fHeadDraw :: op.fTailDraws

/-- `DrawPathsOp::getFillType()`: the fill type of the head draw's path. -/
def DrawPathsOp.getFillType (op : DrawPathsOp) : Nat :=
  op.fHeadDraw.fPath.fillType

/-- `CCPR::DrawPathsOp::onCombineIfPossible` (lines 166-189): refuse when
fill type, SRGB flags or processor set differ; otherwise splice `that`'s
draw list onto `this`'s tail, join the bounds, and transfer the instance
count.  Returns the updated `(this, that)` on success. -/
def DrawPathsOp.onCombineIfPossible (a b : DrawPathsOp) :
    Option (DrawPathsOp × DrawPathsOp) :=
  if a.getFillType ≠ b.getFillType ∨ a.fSRGBFlags ≠ b.fSRGBFlags ∨
      a.fProcessors ≠ b.fProcessors then
    none
  else
    let merged : DrawPathsOp :=
      { a with
        fTailDraws := a.fTailDraws ++ b.draws
        fBounds := a.fBounds.joinPossiblyEmptyRect b.fBounds
        fInstanceCount := a.fInstanceCount + b.fInstanceCount }
    some (merged, { b with fInstanceCount := 0 })

/-! ### Clip-path cache (makeClipProcessor, lines 198-269) -/

/-- `CCPR::ClipPath`, the fields touched by `init`/`addAccess` and
`makeClipProcessor`. -/
structure ClipPath where
  fDeviceSpacePath : SkPath
  fPathDevIBounds : SkIRect
  fAccessRect : SkIRect
deriving DecidableEq, Repr

/-- `CCPR::ClipPath::init` (lines 232-269): crop an oversized device-space
path to the render target, but record `fPathDevIBounds` from the original
path's bounds; record the first access rect. -/
def ClipPath.init (deviceSpacePath : SkPath) (accessRect : SkIRect)
    (rtWidth rtHeight : Int) : ClipPath :=
  let pathDevBounds := deviceSpacePath.getBounds
  let devPath :=
    if max pathDevBounds.height pathDevBounds.width > kPathCropThreshold then
      crop_path deviceSpacePath (SkIRect.MakeWH rtWidth rtHeight)
    else deviceSpacePath
  { fDeviceSpacePath := devPath,
    fPathDevIBounds := deviceSpacePath.getBounds.roundOut,
    fAccessRect := accessRect }

/-- Modelled from the spec: `ClipPath::addAccess` is declared in the class
header, which is not under `src/`; the spec says a repeated access "widens
the stored access-rectangle union (never shrinks)", i.e. joins the new
access rect into the stored one. -/
def ClipPath.addAccess (cp : ClipPath) (accessRect : SkIRect) : ClipPath :=
  { cp with fAccessRect := cp.fAccessRect.join accessRect }

/-- One `makeClipProcessor` call (lines 210-230) against the cache entry for
a fixed path identity: initialize on first access, widen on later access,
and construct the processor with
`mustCheckBounds = !clipPath.pathDevIBounds().contains(accessRect)`. -/
def makeClipProcessorStep (entry : Option ClipPath) (deviceSpacePath : SkPath)
    (accessRect : SkIRect) (rtWidth rtHeight : Int) : ClipPath × Bool :=
  let clipPath :=
    match entry with
    | none => ClipPath.init deviceSpacePath accessRect rtWidth rtHeight
    | some cp => cp.addAccess accessRect
  (clipPath, !(clipPath.fPathDevIBounds.contains accessRect))

/-- A sequence of `makeClipProcessor` calls for one path identity within one
render-target-list: returns the `MustCheckBounds` flag of each returned
processor, in call order. -/
def makeClipProcessorRun (deviceSpacePath : SkPath) (rtWidth rtHeight : Int) :
    List SkIRect → Option ClipPath → List Bool
  | [], _ => []
  | r :: rest, entry =>
    let step := makeClipProcessorStep entry deviceSpacePath r rtWidth rtHeight
    step.2 :: makeClipProcessorRun deviceSpacePath rtWidth rtHeight rest (some step.1)

/-! ### onCanDrawPath (lines 58-99) -/

/-- `GrPathRenderer::CanDrawPath`. -/
inductive CanDrawPath where
  | kNo
  | kYes
  | kAsBackup
deriving DecidableEq, Repr

/-- `GrAAType`. -/
inductive GrAAType where
  | kNone
  | kCoverage
  | kMSAA
deriving DecidableEq, Repr

/-- The observations `onCanDrawPath` makes of a `GrShape`. -/
structure GrShape where
  path : SkPath
  hasUnstyledKey : Bool
  styleIsSimpleFill : Bool
  inverseFilled : Bool
deriving DecidableEq, Repr

/-- `GrPathRenderer::CanDrawPathArgs`, the fields `onCanDrawPath` reads. -/
structure CanDrawPathArgs where
  fShape : GrShape
  fViewMatrix : SkMatrix
  fClipConservativeBounds : SkIRect
  fAAType : GrAAType
deriving DecidableEq, Repr

/-- `GrCoverageCountingPathRenderer::onCanDrawPath` (lines 58-99).
`drawCachablePaths` is the renderer's `fDrawCachablePaths` flag. -/
def onCanDrawPath (drawCachablePaths : Bool) (args : CanDrawPathArgs) :
    CanDrawPath :=
  if args.fShape.hasUnstyledKey && !drawCachablePaths then
    CanDrawPath.kNo
  else if !args.fShape.styleIsSimpleFill || args.fShape.inverseFilled ||
      args.fViewMatrix.hasPerspective ||
      decide (GrAAType.kCoverage ≠ args.fAAType) then
    CanDrawPath.kNo
  else if decide (args.fShape.path.conicWeightCnt ≠ 0) then
    CanDrawPath.kNo
  else
    let devBounds := args.fViewMatrix.mapRect args.fShape.path.getBounds
    let devIBounds := devBounds.roundOut
    match devIBounds.intersect args.fClipConservativeBounds with
    | none => CanDrawPath.kYes
    | some ib =>
      if ib.height * ib.width > 256 * 256 then
        CanDrawPath.kAsBackup
      else if args.fShape.hasUnstyledKey && decide (args.fShape.path.countVerbs > 50) then
        CanDrawPath.kAsBackup
      else
        CanDrawPath.kYes

/-! ### The flush pass (preFlush lines 271-405, setupResources lines 407-458,
onExecute lines 509-552) -/

/-- One record of `GrCCPRPathProcessor::Instance` as written at lines
442-449: the two parsed bounding boxes, the linearized matrix coefficients,
the translation, the atlas offset and the color. -/
structure PathInstance where
  devBounds : SkRect
  devBounds45 : SkRect
  matrixCoeffs : ℚ × ℚ × ℚ × ℚ
  matrixTrans : ℚ × ℚ
  atlasOffset : Int × Int
  color : GrColor
deriving DecidableEq, Repr

/-- The instance record written for one draw (lines 442-449). -/
def mkPathInstance (d : SingleDraw) (devBounds devBounds45 : SkRect)
    (off : Int × Int) : PathInstance :=
  ⟨devBounds, devBounds45,
   (d.fMatrix.scaleX, d.fMatrix.skewY, d.fMatrix.skewX, d.fMatrix.scaleY),
   (d.fMatrix.transX, d.fMatrix.transY), off, d.fColor⟩

/-- `CCPR::DrawPathsOp::setupResources` (lines 407-458) over one op's draw
list.  `parse` models `GrCCPRCoverageOpsBuilder::parsePath` (an external
collaborator): the device-space and 45-degree bounding boxes of the parsed
path.  `loc` models the atlas location obtained for the n-th written
instance.  Returns the instances written, the final instance index, and the
number of skipped (rejected) draws. -/
def setupDraws (parse : SkMatrix → SkPath → SkRect × SkRect)
    (loc : Nat → Int × Int) :
    List SingleDraw → Nat → List PathInstance × Nat × Nat
  | [], idx => ([], idx, 0)
  | d :: rest, idx =>
    let parsed := parse d.fMatrix d.fPath
    let devIBounds := parsed.1.roundOut
    match atlasPlacement d.fClipIBounds devIBounds with
    | none =>
      let r := setupDraws parse loc rest idx
      (r.1, r.2.1, r.2.2 + 1)
    | some x =>
      let off := ((loc idx).1 - x.2.left, (loc idx).2 - x.2.top)
      let r := setupDraws parse loc rest (idx + 1)
      (mkPathInstance d parsed.1 parsed.2 off :: r.1, r.2.1, r.2.2)

def DrawPathsOp.setupResources (parse : SkMatrix → SkPath → SkRect × SkRect)
    (loc : Nat → Int × Int) (op : DrawPathsOp) (idx : Nat) :
    List PathInstance × Nat × Nat :=
  setupDraws parse loc op.draws idx

/-- `CCPR::RTPendingPaths`: the pending draw ops and clip paths of one
render-target-list. -/
structure RTPendingPaths where
  fDrawOps : List DrawPathsOp
  fClipPaths : List ClipPath
deriving DecidableEq, Repr

/-- The counting pass of `preFlush` (lines 289-320): every `SingleDraw` of
every pending op plus every clip path contributes one to `maxTotalPaths`,
the count used to size the instance buffer. -/
def maxTotalPathsOf (rts : List RTPendingPaths) : Nat :=
  (rts.map fun rt =>
    (rt.fDrawOps.map fun op => op.draws.length).sum + rt.fClipPaths.length).sum

def numClipPathsOf (rts : List RTPendingPaths) : Nat :=
  (rts.map fun rt => rt.fClipPaths.length).sum

/-- The instance-filling pass of `preFlush` (lines 353-374): run
`setupResources` for each pending op in order; clip paths are placed into
the atlas (`ClipPath::placePathInAtlas`, lines 460-469) but never write a
`PathInstance` and are not counted as skipped. -/
def setupOps (parse : SkMatrix → SkPath → SkRect × SkRect)
    (loc : Nat → Int × Int) :
    List DrawPathsOp → Nat → List PathInstance × Nat × Nat
  | [], idx => ([], idx, 0)
  | op :: rest, idx =>
    let r1 := op.setupResources parse loc idx
    let r2 := setupOps parse loc rest r1.2.1
    (r1.1 ++ r2.1, r2.2.1, r1.2.2 + r2.2.2)

def fillPass (parse : SkMatrix → SkPath → SkRect × SkRect)
    (loc : Nat → Int × Int) :
    List RTPendingPaths → Nat → List PathInstance × Nat × Nat
  | [], idx => ([], idx, 0)
  | rt :: rest, idx =>
    let r1 := setupOps parse loc rt.fDrawOps idx
    let r2 := fillPass parse loc rest r1.2.1
    (r1.1 ++ r2.1, r2.2.1, r1.2.2 + r2.2.2)

/-- Modelled from the spec: the outcomes of the GPU buffer allocations
`preFlush` performs (index buffer, vertex buffer, instance buffer, and the
atlas finalize buffers allocated by `GrCCPRCoverageOpsBuilder::finalize`);
the allocators themselves are external collaborators. -/
structure AllocOracle where
  indexBufferOk : Bool
  vertexBufferOk : Bool
  instanceBufferOk : Bool
  atlasFinalizeOk : Bool
deriving DecidableEq, Repr

/-- The observable result of one `preFlush` call: the final value of
`fPerFlushResourcesAreValid`, the instances written into the mapped
instance buffer, and the total skipped-instance count. -/
structure PreFlushResult where
  resourcesValid : Bool
  instances : List PathInstance
  skipped : Nat
deriving DecidableEq, Repr

/-- `GrCoverageCountingPathRenderer::preFlush` (lines 271-405).  `valid0` is
the value of `fPerFlushResourcesAreValid` on entry (the flag is only
assigned once something is pending, line 287).  Each failed allocation
returns early with the flag still false. -/
def preFlush (parse : SkMatrix → SkPath → SkRect × SkRect)
    (loc : Nat → Int × Int) (alloc : AllocOracle) (valid0 : Bool)
    (rts : List RTPendingPaths) : PreFlushResult :=
  if rts.isEmpty then ⟨valid0, [], 0⟩
  else if maxTotalPathsOf rts = 0 then ⟨false, [], 0⟩
  else if !alloc.indexBufferOk then ⟨false, [], 0⟩
  else if !alloc.vertexBufferOk then ⟨false, [], 0⟩
  else if !alloc.instanceBufferOk then ⟨false, [], 0⟩
  else
    let filled := fillPass parse loc rts 0
    if !alloc.atlasFinalizeOk then ⟨false, filled.1, filled.2.2⟩
    else ⟨true, filled.1, filled.2.2⟩

/-- One `AtlasBatch` recorded by `addAtlasBatch`: whether its atlas ended up
with a texture, and the end instance index. -/
structure AtlasBatch where
  atlasHasTexture : Bool
  fEndInstanceIdx : Int
deriving DecidableEq, Repr

/-- One GPU draw issued through `rtCommandBuffer()->draw` (line 548),
identified by its instanced mesh range. -/
structure DrawCommand where
  instanceCount : Int
  baseInstance : Int
deriving DecidableEq, Repr

/-- The per-batch loop of `onExecute` (lines 529-549): one draw per atlas
batch, skipping batches whose atlas failed to allocate a texture. -/
def execBatches : List AtlasBatch → Int → List DrawCommand
  | [], _ => []
  | b :: rest, base =>
    let cmds := execBatches rest b.fEndInstanceIdx
    if b.atlasHasTexture then
      ⟨b.fEndInstanceIdx - base, base⟩ :: cmds
    else cmds

/-- `CCPR::DrawPathsOp::onExecute` (lines 509-552): if the per-flush
resources are invalid, return immediately and issue no draw at all. -/
def DrawPathsOp.onExecute (resourcesValid : Bool) (baseInstance : Int)
    (batches : List AtlasBatch) : List DrawCommand :=
  if !resourcesValid then [] else execBatches batches baseInstance

/-! ### GrAHardwareBufferImageGenerator::Make -/

/-- Android hardware-buffer pixel-format constants (from
`android/hardware_buffer.h`). -/
def AHARDWAREBUFFER_FORMAT_R8G8B8A8_UNORM : Nat := 1

def AHARDWAREBUFFER_FORMAT_R5G6B5_UNORM : Nat := 4

def AHARDWAREBUFFER_FORMAT_R16G16B16A16_FLOAT : Nat := 0x16

inductive SkColorType where
  | kRGBA_8888
  | kRGBA_F16
  | kRGB_565
deriving DecidableEq, Repr

structure AHardwareBuffer_Desc where
  format : Nat
  width : Nat
  height : Nat
deriving DecidableEq, Repr

/-- The `SkImageInfo` the generator is constructed with. -/
structure SkImageInfo where
  width : Nat
  height : Nat
  colorType : SkColorType
deriving DecidableEq, Repr

/-- `GrAHardwareBufferImageGenerator::Make` (lines 32-54): switch on the
buffer's pixel format; any format outside the whitelist returns null. -/
def GrAHardwareBufferImageGenerator.Make (desc : AHardwareBuffer_Desc) :
    Option SkImageInfo :=
  if desc.format = AHARDWAREBUFFER_FORMAT_R8G8B8A8_UNORM then
    some ⟨desc.width, desc.height, SkColorType.kRGBA_8888⟩
  else if desc.format = AHARDWAREBUFFER_FORMAT_R16G16B16A16_FLOAT then
    some ⟨desc.width, desc.height, SkColorType.kRGBA_F16⟩
  else if desc.format = AHARDWAREBUFFER_FORMAT_R5G6B5_UNORM then
    some ⟨desc.width, desc.height, SkColorType.kRGB_565⟩
  else none

/-! ### Sanity examples (concrete evaluations of the embedding) -/

example : SkIRect.intersect ⟨0, 0, 10, 10⟩ ⟨5, 5, 20, 20⟩ = some ⟨5, 5, 10, 10⟩ := by decide

example : SkIRect.contains ⟨0, 0, 10, 10⟩ ⟨2, 2, 5, 5⟩ = true := by decide

example : SkRect.roundOut ⟨-(3 : ℚ)/2, 1/2, 5/2, 7/2⟩ = ⟨-2, 0, 3, 4⟩ := by
  simp only [SkRect.roundOut, SkIRect.mk.injEq]
  refine ⟨by norm_num, by norm_num, ?_, ?_⟩ <;> (rw [Int.ceil_eq_iff]; norm_num)

/-! ### Helper lemmas -/

/-- If a head point and all tail points lie in a box, so does their
bounding box. -/
theorem qBBoxAux_bounds (l t r b : ℚ) (p : ℚ × ℚ) (ps : List (ℚ × ℚ))
    (hp : l ≤ p.1 ∧ p.1 ≤ r ∧ t ≤ p.2 ∧ p.2 ≤ b)
    (h : ∀ q ∈ ps, l ≤ q.1 ∧ q.1 ≤ r ∧ t ≤ q.2 ∧ q.2 ≤ b) :
    l ≤ (qBBoxAux p ps).left ∧ (qBBoxAux p ps).right ≤ r ∧
      t ≤ (qBBoxAux p ps).top ∧ (qBBoxAux p ps).bottom ≤ b := by
  induction ps generalizing p with
  | nil => exact ⟨hp.1, hp.2.1, hp.2.2.1, hp.2.2.2⟩
  | cons q rest ih =>
    have hq := h q (List.mem_cons_self q rest)
    have hrest : ∀ x ∈ rest, l ≤ x.1 ∧ x.1 ≤ r ∧ t ≤ x.2 ∧ x.2 ≤ b :=
      fun x hx => h x (List.mem_cons_of_mem q hx)
    have ihq := ih q hq hrest
    simp only [qBBoxAux]
    exact ⟨le_min hp.1 ihq.1, max_le hp.2.1 ihq.2.1,
           le_min hp.2.2.1 ihq.2.2.1, max_le hp.2.2.2 ihq.2.2.2⟩

/-- Size bound for the bounding box of points confined to a box. -/
theorem qBBox_size_le (ps : List (ℚ × ℚ)) (l t r b : ℚ) (hlr : l ≤ r) (htb : t ≤ b)
    (h : ∀ q ∈ ps, l ≤ q.1 ∧ q.1 ≤ r ∧ t ≤ q.2 ∧ q.2 ≤ b) :
    (qBBox ps).width ≤ r - l ∧ (qBBox ps).height ≤ b - t := by
  cases ps with
  | nil =>
    simp only [qBBox, SkRect.width, SkRect.height]
    exact ⟨by linarith, by linarith⟩
  | cons p rest =>
    have hb := qBBoxAux_bounds l t r b p rest
      (h p (List.mem_cons_self p rest))
      (fun x hx => h x (List.mem_cons_of_mem p hx))
    simp only [qBBox, SkRect.width, SkRect.height]
    exact ⟨sub_le_sub hb.2.1 hb.1, sub_le_sub hb.2.2.2 hb.2.2.1⟩

/-- Clamped points lie inside the clamping box. -/
theorem clampToRect_mem (r : SkRect) (hlr : r.left ≤ r.right)
    (htb : r.top ≤ r.bottom) (p : ℚ × ℚ) :
    r.left ≤ (clampToRect r p).1 ∧ (clampToRect r p).1 ≤ r.right ∧
      r.top ≤ (clampToRect r p).2 ∧ (clampToRect r p).2 ≤ r.bottom := by
  unfold clampToRect
  refine ⟨le_min (le_max_right _ _) hlr, min_le_right _ _,
          le_min (le_max_right _ _) htb, min_le_right _ _⟩

/-- The bounds of the rectangle path of a well-formed crop box are the crop
box itself. -/
theorem rectPathOf_getBounds (clip : SkIRect)
    (hlr : (clip.left : ℚ) ≤ (clip.right : ℚ))
    (htb : (clip.top : ℚ) ≤ (clip.bottom : ℚ)) :
    (rectPathOf clip).getBounds = SkRect.Make clip := by
  simp only [rectPathOf, SkPath.getBounds, SkRect.Make, qBBox, qBBoxAux]
  congr 1 <;> simp [min_eq_right, max_eq_right, hlr, htb,
    min_eq_left, max_eq_left, le_refl, min_self, max_self]

/-- Size bound for the result of `crop_path`: never wider or taller than
the crop box. -/
theorem crop_path_size_le (path : SkPath) (clip : SkIRect)
    (hlr : (clip.left : ℚ) ≤ (clip.right : ℚ))
    (htb : (clip.top : ℚ) ≤ (clip.bottom : ℚ)) :
    (crop_path path clip).getBounds.width ≤ (clip.right : ℚ) - (clip.left : ℚ) ∧
      (crop_path path clip).getBounds.height ≤ (clip.bottom : ℚ) - (clip.top : ℚ) := by
  have hR := rectPathOf_getBounds clip hlr htb
  unfold crop_path opIntersect
  cases hv : path.valid with
  | false =>
    simp only [hv, Bool.and_false, Bool.false_eq_true, if_false]
    simp only [SkPath.empty, SkPath.getBounds, qBBox, SkRect.width, SkRect.height]
    exact ⟨by linarith, by linarith⟩
  | true =>
    have hrv : (rectPathOf clip).valid = true := rfl
    simp only [hv, hrv, Bool.and_true, if_true, SkPath.getBounds]
    have hR' : qBBox (rectPathOf clip).points = SkRect.Make clip := hR
    rw [hR']
    refine qBBox_size_le _ _ _ _ _ hlr htb ?_
    intro q hq
    rcases List.mem_map.1 hq with ⟨p, _, rfl⟩
    have hm := clampToRect_mem (SkRect.Make clip) hlr htb p
    exact hm

/-- Containment implies the intersection is the contained rect. -/
theorem contains_intersect (a b : SkIRect) (h : a.contains b = true) :
    SkIRect.intersect a b = some b := by
  simp only [SkIRect.contains, SkIRect.isEmpty, Bool.and_eq_true, Bool.not_eq_true',
    Bool.or_eq_false_iff, decide_eq_false_iff_not, not_le, decide_eq_true_eq] at h
  obtain ⟨⟨⟨⟨⟨hbne, hane⟩, hl⟩, ht⟩, hr⟩, hb⟩ := h
  simp only [SkIRect.intersect]
  rw [max_eq_right hl, max_eq_right ht, min_eq_right hr, min_eq_right hb]
  rw [if_pos ⟨hbne.1, hbne.2⟩]

/-! ### Claim C1 -/

/-- Claim C1: for every placement request, containment of the path bounds in
the clip bounds gives a non-scissored placement at the unchanged path
bounds; otherwise a nonempty intersection gives a scissored placement at
the intersected bounds; an empty intersection returns a null atlas, the
parsed path is discarded from the builder, and no instance is written for
such a draw by `setupResources`. -/
theorem placeParsedPathInAtlas_clip_cases (atlases : List AtlasM)
    (freshLoc : Int × Int) (clipIBounds pathIBounds : SkIRect) :
    (clipIBounds.contains pathIBounds = true →
      atlasPlacement clipIBounds pathIBounds =
        some (ScissorMode.kNonScissored, pathIBounds)) ∧
    (clipIBounds.contains pathIBounds = false →
      ∀ clipped, SkIRect.intersect clipIBounds pathIBounds = some clipped →
        atlasPlacement clipIBounds pathIBounds =
          some (ScissorMode.kScissored, clipped)) ∧
    (SkIRect.intersect clipIBounds pathIBounds = none →
      atlasPlacement clipIBounds pathIBounds = none ∧
      (placeParsedPathInAtlas atlases freshLoc clipIBounds pathIBounds).atlas = none ∧
      (placeParsedPathInAtlas atlases freshLoc clipIBounds pathIBounds).events =
        [BuilderEvent.discardParsedPath] ∧
      (∀ parse loc d idx, d.fClipIBounds = clipIBounds →
        (parse d.fMatrix d.fPath).1.roundOut = pathIBounds →
        setupDraws parse loc [d] idx = ([], idx, 1))) ∧
    (∀ mode clipped,
      atlasPlacement clipIBounds pathIBounds = some (mode, clipped) →
      (placeParsedPathInAtlas atlases freshLoc clipIBounds pathIBounds).atlas.isSome
        = true ∧
      (placeParsedPathInAtlas atlases freshLoc clipIBounds pathIBounds).savedParams
        = [(mode, clipped)]) := by
  refine ⟨?_, ?_, ?_, ?_⟩
  · intro h
    simp [atlasPlacement, h]
  · intro h clipped hint
    simp [atlasPlacement, h, hint]
  · intro hnone
    have hc : clipIBounds.contains pathIBounds = false := by
      cases hcc : clipIBounds.contains pathIBounds with
      | false => rfl
      | true => rw [contains_intersect _ _ hcc] at hnone; cases hnone
    have hAP : atlasPlacement clipIBounds pathIBounds = none := by
      simp [atlasPlacement, hc, hnone]
    refine ⟨hAP, ?_, ?_, ?_⟩
    · simp [placeParsedPathInAtlas, hAP]
    · simp [placeParsedPathInAtlas, hAP]
    · intro parse loc d idx hclip hparse
      simp [setupDraws, hclip, hparse, hAP]
  · intro mode clipped hAP
    unfold placeParsedPathInAtlas
    rw [hAP]
    cases hL : atlases.getLast? with
    | none => simp [PlaceOutcome.savedParams]
    | some last =>
      cases hA : last.addRectResult with
      | none => simp [hA, PlaceOutcome.savedParams, List.filterMap]
      | some loc => simp [hA, PlaceOutcome.savedParams, List.filterMap]

/-- Witness for C1: a contained path is placed non-scissored as-is, a
partially clipped path is placed scissored at the intersection, and a path
outside its clip is rejected with a null atlas. -/
theorem placeParsedPathInAtlas_clip_cases_witness :
    atlasPlacement ⟨0, 0, 10, 10⟩ ⟨2, 2, 5, 5⟩ =
      some (ScissorMode.kNonScissored, ⟨2, 2, 5, 5⟩) ∧
    atlasPlacement ⟨0, 0, 10, 10⟩ ⟨5, 5, 20, 20⟩ =
      some (ScissorMode.kScissored, ⟨5, 5, 10, 10⟩) ∧
    (placeParsedPathInAtlas [] (0, 0) ⟨0, 0, 10, 10⟩ ⟨20, 20, 30, 30⟩).atlas = none :=
  ⟨(placeParsedPathInAtlas_clip_cases [] (0, 0) ⟨0, 0, 10, 10⟩ ⟨2, 2, 5, 5⟩).1
      (by decide),
   (placeParsedPathInAtlas_clip_cases [] (0, 0) ⟨0, 0, 10, 10⟩ ⟨5, 5, 20, 20⟩).2.1
      (by decide) ⟨5, 5, 10, 10⟩ (by decide),
   ((placeParsedPathInAtlas_clip_cases [] (0, 0) ⟨0, 0, 10, 10⟩ ⟨20, 20, 30, 30⟩).2.2.1
      (by decide)).2.1⟩

/-! ### Claim C3 -/

/-- Claim C3: a `SingleDraw` whose mapped device bounds exceed the
`2^16`-unit crop threshold in its larger dimension stores the
device-transformed path cropped to the clip bounds (the boolean
intersection with the clip rectangle whenever the path operation succeeds,
with resulting bounds no larger than the clip bounds) together with an
identity matrix; otherwise the original path and view matrix are stored
unchanged. -/
theorem DrawPathsOp_initHeadDraw_crop (shape : SkPath) (m : SkMatrix)
    (clipIBounds : SkIRect) (color : GrColor)
    (hlr : (clipIBounds.left : ℚ) ≤ (clipIBounds.right : ℚ))
    (htb : (clipIBounds.top : ℚ) ≤ (clipIBounds.bottom : ℚ)) :
    (max (m.mapRect shape.getBounds).height (m.mapRect shape.getBounds).width >
        kPathCropThreshold →
      (DrawPathsOp.initHeadDraw shape m clipIBounds color).fMatrix =
        SkMatrix.identity ∧
      (DrawPathsOp.initHeadDraw shape m clipIBounds color).fPath =
        crop_path (shape.transform m) clipIBounds ∧
      ((shape.transform m).valid = true →
        opIntersect (rectPathOf clipIBounds) (shape.transform m) =
          some (DrawPathsOp.initHeadDraw shape m clipIBounds color).fPath) ∧
      (DrawPathsOp.initHeadDraw shape m clipIBounds color).fPath.getBounds.width ≤
        (clipIBounds.right : ℚ) - (clipIBounds.left : ℚ) ∧
      (DrawPathsOp.initHeadDraw shape m clipIBounds color).fPath.getBounds.height ≤
        (clipIBounds.bottom : ℚ) - (clipIBounds.top : ℚ)) ∧
    (¬(max (m.mapRect shape.getBounds).height (m.mapRect shape.getBounds).width >
        kPathCropThreshold) →
      (DrawPathsOp.initHeadDraw shape m clipIBounds color).fPath = shape ∧
      (DrawPathsOp.initHeadDraw shape m clipIBounds color).fMatrix = m) := by
  constructor
  · intro hbig
    have hd : DrawPathsOp.initHeadDraw shape m clipIBounds color =
        { fPath := crop_path (shape.transform m) clipIBounds,
          fMatrix := SkMatrix.identity, fClipIBounds := clipIBounds,
          fColor := color } := by
      unfold DrawPathsOp.initHeadDraw
      rw [if_pos hbig]
    rw [hd]
    refine ⟨rfl, rfl, ?_, ?_, ?_⟩
    · intro hv
      have hrv : (rectPathOf clipIBounds).valid = true := rfl
      unfold crop_path opIntersect
      simp [hv, hrv]
    · exact (crop_path_size_le (shape.transform m) clipIBounds hlr htb).1
    · exact (crop_path_size_le (shape.transform m) clipIBounds hlr htb).2
  · intro hsmall
    have hd : DrawPathsOp.initHeadDraw shape m clipIBounds color =
        { fPath := shape, fMatrix := m, fClipIBounds := clipIBounds,
          fColor := color } := by
      unfold DrawPathsOp.initHeadDraw
      rw [if_neg hsmall]
    rw [hd]
    exact ⟨rfl, rfl⟩

/-- Witness for C3: a 200000-unit-wide path is cropped (identity matrix
stored, cropped bounds no wider than the 100-unit clip), while a small path
is stored unchanged. -/
theorem DrawPathsOp_initHeadDraw_crop_witness :
    (DrawPathsOp.initHeadDraw ⟨[(0, 0), (200000, 10)], 2, 0, 0, true⟩
        SkMatrix.identity ⟨0, 0, 100, 100⟩ 0).fMatrix = SkMatrix.identity ∧
    (DrawPathsOp.initHeadDraw ⟨[(0, 0), (200000, 10)], 2, 0, 0, true⟩
        SkMatrix.identity ⟨0, 0, 100, 100⟩ 0).fPath.getBounds.width ≤
      ((100 : Int) : ℚ) - ((0 : Int) : ℚ) ∧
    (DrawPathsOp.initHeadDraw ⟨[(0, 0), (50, 10)], 2, 0, 0, true⟩
        SkMatrix.identity ⟨0, 0, 100, 100⟩ 0).fPath =
      ⟨[(0, 0), (50, 10)], 2, 0, 0, true⟩ := by
  have hbig := (DrawPathsOp_initHeadDraw_crop ⟨[(0, 0), (200000, 10)], 2, 0, 0, true⟩
      SkMatrix.identity ⟨0, 0, 100, 100⟩ 0 (by norm_num) (by norm_num)).1
    (by norm_num [SkMatrix.mapRect, SkMatrix.mapPoint, SkMatrix.identity,
      SkPath.getBounds, qBBox, qBBoxAux, SkRect.height, SkRect.width,
      kPathCropThreshold])
  have hsmall := (DrawPathsOp_initHeadDraw_crop ⟨[(0, 0), (50, 10)], 2, 0, 0, true⟩
      SkMatrix.identity ⟨0, 0, 100, 100⟩ 0 (by norm_num) (by norm_num)).2
    (by norm_num [SkMatrix.mapRect, SkMatrix.mapPoint, SkMatrix.identity,
      SkPath.getBounds, qBBox, qBBoxAux, SkRect.height, SkRect.width,
      kPathCropThreshold])
  exact ⟨hbig.1, hbig.2.2.2.1, hsmall.1⟩

/-! ### Claim C4 -/

/-- Claim C4: `crop_path` is total; when the boolean intersection fails
(NaN/infinite geometry, modelled by `valid = false`) the output is the
empty path, and when it succeeds the output is the intersection of the crop
rectangle with the input path. -/
theorem crop_path_failure_and_success (path : SkPath) (cropbox : SkIRect) :
    (path.valid = false → crop_path path cropbox = SkPath.empty) ∧
    (path.valid = true →
      opIntersect (rectPathOf cropbox) path = some (crop_path path cropbox)) := by
  constructor
  · intro h
    simp [crop_path, opIntersect, h]
  · intro h
    have hrv : (rectPathOf cropbox).valid = true := rfl
    unfold crop_path opIntersect
    simp [h, hrv]

/-- Witness for C4 at concrete inputs: an invalid path degrades to the
empty path, and a valid path yields the intersection. -/
theorem crop_path_failure_and_success_witness :
    crop_path ⟨[(0, 0), (5, 5)], 2, 0, 0, false⟩ ⟨0, 0, 10, 10⟩ = SkPath.empty ∧
    opIntersect (rectPathOf ⟨0, 0, 10, 10⟩) ⟨[(0, 0), (20, 5)], 2, 0, 0, true⟩ =
      some (crop_path ⟨[(0, 0), (20, 5)], 2, 0, 0, true⟩ ⟨0, 0, 10, 10⟩) :=
  ⟨(crop_path_failure_and_success ⟨[(0, 0), (5, 5)], 2, 0, 0, false⟩
      ⟨0, 0, 10, 10⟩).1 rfl,
   (crop_path_failure_and_success ⟨[(0, 0), (20, 5)], 2, 0, 0, true⟩
      ⟨0, 0, 10, 10⟩).2 rfl⟩

/-! ### Claim C5 -/

/-- Claim C5: `onCombineIfPossible` succeeds exactly when fill type, SRGB
flags and processor set are equal; on success the other op's draw list is
appended to this op's tail in order, the bounds are unioned, and the
other op's instance count is transferred, leaving it at zero. -/
theorem onCombineIfPossible_spec (a b : DrawPathsOp) :
    ((a.onCombineIfPossible b).isSome = true ↔
      (a.getFillType = b.getFillType ∧ a.fSRGBFlags = b.fSRGBFlags ∧
        a.fProcessors = b.fProcessors)) ∧
    (∀ a2 b2, a.onCombineIfPossible b = some (a2, b2) →
      a2.draws = a.draws ++ b.draws ∧
      a2.fBounds = a.fBounds.joinPossiblyEmptyRect b.fBounds ∧
      a2.fInstanceCount = a.fInstanceCount + b.fInstanceCount ∧
      b2.fInstanceCount = 0) := by
  constructor
  · by_cases h : a.getFillType ≠ b.getFillType ∨ a.fSRGBFlags ≠ b.fSRGBFlags ∨
        a.fProcessors ≠ b.fProcessors
    · simp only [DrawPathsOp.onCombineIfPossible, if_pos h, Option.isSome_none]
      constructor
      · intro hfalse; cases hfalse
      · intro hs
        rcases h with h | h | h <;> exact absurd (by tauto) h
    · simp only [DrawPathsOp.onCombineIfPossible, if_neg h, Option.isSome_some]
      push_neg at h
      exact ⟨fun _ => h, fun _ => trivial⟩
  · intro a2 b2 hm
    by_cases h : a.getFillType ≠ b.getFillType ∨ a.fSRGBFlags ≠ b.fSRGBFlags ∨
        a.fProcessors ≠ b.fProcessors
    · simp only [DrawPathsOp.onCombineIfPossible, if_pos h] at hm
      cases hm
    · simp only [DrawPathsOp.onCombineIfPossible, if_neg h, Option.some.injEq,
        Prod.mk.injEq] at hm
      obtain ⟨ha2, hb2⟩ := hm
      subst ha2; subst hb2
      exact ⟨by simp [DrawPathsOp.draws], rfl, rfl, rfl⟩

/-- Witness for C5: two concrete mergeable ops; the merged op carries both
draw lists in order, the joined bounds, the summed instance count, and the
emptied other op. -/
theorem onCombineIfPossible_spec_witness :
    (DrawPathsOp.draws
        ⟨3, 7, ⟨SkPath.empty, SkMatrix.identity, ⟨0, 0, 1, 1⟩, 0⟩,
          [⟨SkPath.empty, SkMatrix.identity, ⟨0, 0, 2, 2⟩, 1⟩],
          SkRect.joinPossiblyEmptyRect ⟨0, 0, 1, 1⟩ ⟨0, 0, 2, 2⟩, 2⟩ : List SingleDraw) =
      DrawPathsOp.draws ⟨3, 7, ⟨SkPath.empty, SkMatrix.identity, ⟨0, 0, 1, 1⟩, 0⟩, [],
          ⟨0, 0, 1, 1⟩, 1⟩ ++
        DrawPathsOp.draws ⟨3, 7, ⟨SkPath.empty, SkMatrix.identity, ⟨0, 0, 2, 2⟩, 1⟩, [],
          ⟨0, 0, 2, 2⟩, 1⟩ ∧
    (⟨3, 7, ⟨SkPath.empty, SkMatrix.identity, ⟨0, 0, 1, 1⟩, 0⟩,
        [⟨SkPath.empty, SkMatrix.identity, ⟨0, 0, 2, 2⟩, 1⟩],
        SkRect.joinPossiblyEmptyRect ⟨0, 0, 1, 1⟩ ⟨0, 0, 2, 2⟩, 2⟩ : DrawPathsOp).fBounds =
      SkRect.joinPossiblyEmptyRect ⟨0, 0, 1, 1⟩ ⟨0, 0, 2, 2⟩ ∧
    (⟨3, 7, ⟨SkPath.empty, SkMatrix.identity, ⟨0, 0, 1, 1⟩, 0⟩,
        [⟨SkPath.empty, SkMatrix.identity, ⟨0, 0, 2, 2⟩, 1⟩],
        SkRect.joinPossiblyEmptyRect ⟨0, 0, 1, 1⟩ ⟨0, 0, 2, 2⟩, 2⟩ : DrawPathsOp).fInstanceCount =
      1 + 1 ∧
    (⟨3, 7, ⟨SkPath.empty, SkMatrix.identity, ⟨0, 0, 2, 2⟩, 1⟩, [], ⟨0, 0, 2, 2⟩, 0⟩ :
        DrawPathsOp).fInstanceCount = 0 :=
  (onCombineIfPossible_spec
      ⟨3, 7, ⟨SkPath.empty, SkMatrix.identity, ⟨0, 0, 1, 1⟩, 0⟩, [], ⟨0, 0, 1, 1⟩, 1⟩
      ⟨3, 7, ⟨SkPath.empty, SkMatrix.identity, ⟨0, 0, 2, 2⟩, 1⟩, [], ⟨0, 0, 2, 2⟩, 1⟩).2
    _ _ rfl

/-! ### Claim C9 -/

/-- Claim C9: `GrAHardwareBufferImageGenerator::Make` returns an image
generator if and only if the buffer's pixel format is RGBA8888 unorm,
RGBA16 float, or RGB565; every other format yields null. -/
theorem GrAHardwareBufferImageGenerator_Make_whitelist (desc : AHardwareBuffer_Desc) :
    (GrAHardwareBufferImageGenerator.Make desc).isSome = true ↔
      (desc.format = AHARDWAREBUFFER_FORMAT_R8G8B8A8_UNORM ∨
       desc.format = AHARDWAREBUFFER_FORMAT_R16G16B16A16_FLOAT ∨
       desc.format = AHARDWAREBUFFER_FORMAT_R5G6B5_UNORM) := by
  unfold GrAHardwareBufferImageGenerator.Make AHARDWAREBUFFER_FORMAT_R8G8B8A8_UNORM
    AHARDWAREBUFFER_FORMAT_R16G16B16A16_FLOAT AHARDWAREBUFFER_FORMAT_R5G6B5_UNORM
  by_cases h1 : desc.format = 1 <;> by_cases h2 : desc.format = 22 <;>
    by_cases h3 : desc.format = 4 <;> simp [h1, h2, h3]

/-! ### Claim C2 -/

/-- Claim C2: if any required GPU buffer allocation fails during a flush
with pending paths, the per-flush resources stay marked invalid and every
subsequently executed `DrawPathsOp` issues no draw command at all. -/
theorem preFlush_allocFailure_drawsNothing
    (parse : SkMatrix → SkPath → SkRect × SkRect) (loc : Nat → Int × Int)
    (alloc : AllocOracle) (valid0 : Bool) (rts : List RTPendingPaths)
    (hp : maxTotalPathsOf rts ≠ 0)
    (hf : ¬(alloc.indexBufferOk = true ∧ alloc.vertexBufferOk = true ∧
        alloc.instanceBufferOk = true ∧ alloc.atlasFinalizeOk = true)) :
    (preFlush parse loc alloc valid0 rts).resourcesValid = false ∧
    ∀ base batches,
      DrawPathsOp.onExecute (preFlush parse loc alloc valid0 rts).resourcesValid
        base batches = [] := by
  have hne : rts.isEmpty = false := by
    cases rts with
    | nil => exact absurd rfl hp
    | cons rt rest => rfl
  have hval : (preFlush parse loc alloc valid0 rts).resourcesValid = false := by
    cases hio : alloc.indexBufferOk <;> cases hvo : alloc.vertexBufferOk <;>
      cases hbo : alloc.instanceBufferOk <;> cases hao : alloc.atlasFinalizeOk <;>
        simp_all [preFlush, hne, hp]
  refine ⟨hval, fun base batches => ?_⟩
  rw [hval]
  rfl

/-- Witness for C2: one pending draw with a failed instance-buffer
allocation leaves the flush invalid and executing the op draws nothing. -/
theorem preFlush_allocFailure_drawsNothing_witness :
    (preFlush (fun _ _ => (⟨0, 0, 0, 0⟩, ⟨0, 0, 0, 0⟩)) (fun _ => (0, 0))
        ⟨true, true, false, true⟩ true
        [⟨[⟨0, 0, ⟨SkPath.empty, SkMatrix.identity, ⟨0, 0, 4, 4⟩, 0⟩, [],
            ⟨0, 0, 0, 0⟩, 1⟩], []⟩]).resourcesValid = false ∧
    ∀ base batches,
      DrawPathsOp.onExecute
        (preFlush (fun _ _ => (⟨0, 0, 0, 0⟩, ⟨0, 0, 0, 0⟩)) (fun _ => (0, 0))
          ⟨true, true, false, true⟩ true
          [⟨[⟨0, 0, ⟨SkPath.empty, SkMatrix.identity, ⟨0, 0, 4, 4⟩, 0⟩, [],
              ⟨0, 0, 0, 0⟩, 1⟩], []⟩]).resourcesValid base batches = [] :=
  preFlush_allocFailure_drawsNothing _ _ ⟨true, true, false, true⟩ true
    [⟨[⟨0, 0, ⟨SkPath.empty, SkMatrix.identity, ⟨0, 0, 4, 4⟩, 0⟩, [],
        ⟨0, 0, 0, 0⟩, 1⟩], []⟩]
    (by decide) (by decide)

/-! ### Claim C6 -/

/-- Accounting for one op's draw list: the final instance index advances by
the number of instances written, and written + skipped draws make up the
whole list. -/
theorem setupDraws_accounting (parse : SkMatrix → SkPath → SkRect × SkRect)
    (loc : Nat → Int × Int) (draws : List SingleDraw) (idx : Nat) :
    (setupDraws parse loc draws idx).2.1 =
      idx + (setupDraws parse loc draws idx).1.length ∧
    (setupDraws parse loc draws idx).1.length +
      (setupDraws parse loc draws idx).2.2 = draws.length := by
  induction draws generalizing idx with
  | nil => simp [setupDraws]
  | cons d rest ih =>
    simp only [setupDraws]
    cases hAP : atlasPlacement d.fClipIBounds (parse d.fMatrix d.fPath).1.roundOut with
    | none =>
      have := ih idx
      simp only [hAP, List.length_cons]
      omega
    | some x =>
      have := ih (idx + 1)
      simp only [hAP, List.length_cons]
      omega

/-- Accounting across a list of ops. -/
theorem setupOps_accounting (parse : SkMatrix → SkPath → SkRect × SkRect)
    (loc : Nat → Int × Int) (ops : List DrawPathsOp) (idx : Nat) :
    (setupOps parse loc ops idx).2.1 =
      idx + (setupOps parse loc ops idx).1.length ∧
    (setupOps parse loc ops idx).1.length +
      (setupOps parse loc ops idx).2.2 =
      (ops.map fun op => op.draws.length).sum := by
  induction ops generalizing idx with
  | nil => simp [setupOps]
  | cons op rest ih =>
    simp only [setupOps, List.map_cons, List.sum_cons, List.length_append]
    have h1 := setupDraws_accounting parse loc op.draws idx
    have h2 := ih (op.setupResources parse loc idx).2.1
    simp only [DrawPathsOp.setupResources] at *
    omega

/-- Accounting across all render-target-lists. -/
theorem fillPass_accounting (parse : SkMatrix → SkPath → SkRect × SkRect)
    (loc : Nat → Int × Int) (rts : List RTPendingPaths) (idx : Nat) :
    (fillPass parse loc rts idx).1.length + (fillPass parse loc rts idx).2.2 +
      numClipPathsOf rts = maxTotalPathsOf rts := by
  induction rts generalizing idx with
  | nil => simp [fillPass, numClipPathsOf, maxTotalPathsOf]
  | cons rt rest ih =>
    simp only [fillPass, List.length_append, numClipPathsOf, maxTotalPathsOf,
      List.map_cons, List.sum_cons] at *
    have h1 := setupOps_accounting parse loc rt.fDrawOps idx
    have h2 := ih (setupOps parse loc rt.fDrawOps idx).2.1
    omega

/-- Counterexample to claim C6 as stated: with one pending clip path and no
draw ops, zero instances are written and zero are skipped, but the counting
pass tallies one path (the clip path), so written + skipped differs from
the total. -/
theorem preFlush_skip_accounting_counterexample :
    ¬((preFlush (fun _ _ => (⟨0, 0, 0, 0⟩, ⟨0, 0, 0, 0⟩)) (fun _ => (0, 0))
          ⟨true, true, true, true⟩ true
          [⟨[], [⟨SkPath.empty, ⟨0, 0, 1, 1⟩, ⟨0, 0, 1, 1⟩⟩]⟩]).instances.length +
        (preFlush (fun _ _ => (⟨0, 0, 0, 0⟩, ⟨0, 0, 0, 0⟩)) (fun _ => (0, 0))
          ⟨true, true, true, true⟩ true
          [⟨[], [⟨SkPath.empty, ⟨0, 0, 1, 1⟩, ⟨0, 0, 1, 1⟩⟩]⟩]).skipped =
        maxTotalPathsOf [⟨[], [⟨SkPath.empty, ⟨0, 0, 1, 1⟩, ⟨0, 0, 1, 1⟩⟩]⟩]) := by
  decide

/-- Claim C6 (amended): whenever the three buffer allocations succeed (so
the fill pass runs), the number of instances written plus the number of
skipped instances plus the number of clip paths equals the total path count
enumerated during the counting pass; clip paths are tallied in the total
used to size the instance buffer but never write an instance. -/
theorem preFlush_skip_accounting (parse : SkMatrix → SkPath → SkRect × SkRect)
    (loc : Nat → Int × Int) (alloc : AllocOracle) (valid0 : Bool)
    (rts : List RTPendingPaths) (hio : alloc.indexBufferOk = true)
    (hvo : alloc.vertexBufferOk = true) (hbo : alloc.instanceBufferOk = true) :
    (preFlush parse loc alloc valid0 rts).instances.length +
      (preFlush parse loc alloc valid0 rts).skipped + numClipPathsOf rts =
      maxTotalPathsOf rts := by
  cases rts with
  | nil => simp [preFlush, numClipPathsOf, maxTotalPathsOf]
  | cons rt rest =>
    by_cases ht : maxTotalPathsOf (rt :: rest) = 0
    · have hclip : numClipPathsOf (rt :: rest) = 0 := by
        have := fillPass_accounting parse loc (rt :: rest) 0
        omega
      simp [preFlush, ht, hclip]
    · have hfill := fillPass_accounting parse loc (rt :: rest) 0
      cases hao : alloc.atlasFinalizeOk <;>
        simpa [preFlush, ht, hio, hvo, hbo, hao] using hfill

/-- Witness for the amended C6: one op with one (placed) draw plus one clip
path; one instance written, none skipped, one clip path, two total. -/
theorem preFlush_skip_accounting_witness :
    (preFlush (fun _ _ => (⟨0, 0, 2, 2⟩, ⟨0, 0, 2, 2⟩)) (fun _ => (0, 0))
        ⟨true, true, true, true⟩ true
        [⟨[⟨0, 0, ⟨SkPath.empty, SkMatrix.identity, ⟨0, 0, 4, 4⟩, 0⟩, [],
            ⟨0, 0, 0, 0⟩, 1⟩],
          [⟨SkPath.empty, ⟨0, 0, 1, 1⟩, ⟨0, 0, 1, 1⟩⟩]⟩]).instances.length +
      (preFlush (fun _ _ => (⟨0, 0, 2, 2⟩, ⟨0, 0, 2, 2⟩)) (fun _ => (0, 0))
        ⟨true, true, true, true⟩ true
        [⟨[⟨0, 0, ⟨SkPath.empty, SkMatrix.identity, ⟨0, 0, 4, 4⟩, 0⟩, [],
            ⟨0, 0, 0, 0⟩, 1⟩],
          [⟨SkPath.empty, ⟨0, 0, 1, 1⟩, ⟨0, 0, 1, 1⟩⟩]⟩]).skipped +
      numClipPathsOf
        [⟨[⟨0, 0, ⟨SkPath.empty, SkMatrix.identity, ⟨0, 0, 4, 4⟩, 0⟩, [],
            ⟨0, 0, 0, 0⟩, 1⟩],
          [⟨SkPath.empty, ⟨0, 0, 1, 1⟩, ⟨0, 0, 1, 1⟩⟩]⟩] =
      maxTotalPathsOf
        [⟨[⟨0, 0, ⟨SkPath.empty, SkMatrix.identity, ⟨0, 0, 4, 4⟩, 0⟩, [],
            ⟨0, 0, 0, 0⟩, 1⟩],
          [⟨SkPath.empty, ⟨0, 0, 1, 1⟩, ⟨0, 0, 1, 1⟩⟩]⟩] :=
  preFlush_skip_accounting _ _ ⟨true, true, true, true⟩ true _ rfl rfl rfl

/-! ### Claim C7 -/

/-- Every `makeClipProcessor` call computes its `MustCheckBounds` flag from
the device bounds recorded at `init` and the access rect of that call
alone, for any starting cache entry whose recorded bounds match. -/
theorem makeClipProcessorRun_eq_map (path : SkPath) (rtW rtH : Int)
    (accesses : List SkIRect) (entry : Option ClipPath)
    (hB : ∀ cp, entry = some cp → cp.fPathDevIBounds = path.getBounds.roundOut) :
    makeClipProcessorRun path rtW rtH accesses entry =
      accesses.map fun r => !(path.getBounds.roundOut.contains r) := by
  induction accesses generalizing entry with
  | nil => rfl
  | cons r rest ih =>
    have hstep1 : (makeClipProcessorStep entry path r rtW rtH).1.fPathDevIBounds =
        path.getBounds.roundOut := by
      cases entry with
      | none => rfl
      | some cp => exact hB cp rfl
    have hstep2 : (makeClipProcessorStep entry path r rtW rtH).2 =
        !(path.getBounds.roundOut.contains r) := by
      rw [show (makeClipProcessorStep entry path r rtW rtH).2 =
        !((makeClipProcessorStep entry path r rtW rtH).1.fPathDevIBounds.contains r)
        from rfl, hstep1]
    simp only [makeClipProcessorRun, List.map_cons]
    rw [hstep2]
    congr 1
    exact ih (some (makeClipProcessorStep entry path r rtW rtH).1)
      (fun cp hcp => by injection hcp with h; rw [← h]; exact hstep1)

/-- Counterexample to claim C7 as stated: for a clip path with device
bounds (0,0,10,10), a first access (0,0,20,20) and a second access
(2,2,5,5), the second processor is built with `mustCheckBounds = false`
(the second access rect is contained in the bounds), even though the
widened access-rectangle union accumulated so far, (0,0,20,20), is *not*
contained in the bounds — the claim would require `true` for that call. -/
theorem makeClipProcessor_mustCheckBounds_counterexample :
    makeClipProcessorRun ⟨[(0, 0), (10, 10)], 2, 0, 0, true⟩ 100 100
        [⟨0, 0, 20, 20⟩, ⟨2, 2, 5, 5⟩] none = [true, false] ∧
    (!(SkIRect.contains
        ((⟨[(0, 0), (10, 10)], 2, 0, 0, true⟩ : SkPath).getBounds.roundOut)
        (SkIRect.join ⟨0, 0, 20, 20⟩ ⟨2, 2, 5, 5⟩))) = true := by
  have hb : (⟨[(0, 0), (10, 10)], 2, 0, 0, true⟩ : SkPath).getBounds.roundOut =
      ⟨0, 0, 10, 10⟩ := by
    norm_num [SkPath.getBounds, qBBox, qBBoxAux, SkRect.roundOut]
  constructor
  · rw [makeClipProcessorRun_eq_map _ 100 100 _ none (fun cp h => by cases h), hb]
    decide
  · rw [hb]
    decide

/-- Claim C7 (amended): for every sequence of `makeClipProcessor` calls on
the same path identity, the i-th processor is constructed with
`mustCheckBounds` true exactly when the entry's device-space path bounds do
not contain the access rectangle passed to that *individual* call; the
widened access-rectangle union accumulated in the entry does not enter
this decision. -/
theorem makeClipProcessor_mustCheckBounds (path : SkPath) (rtW rtH : Int)
    (accesses : List SkIRect) :
    makeClipProcessorRun path rtW rtH accesses none =
      accesses.map fun r => !(path.getBounds.roundOut.contains r) :=
  makeClipProcessorRun_eq_map path rtW rtH accesses none (fun cp h => by cases h)

/-! ### Claim C8 -/

/-- Claim C8: for a drawable path (simple fill, not inverse-filled, no
perspective, no conic weights, coverage AA, cacheable only when the
renderer draws cacheable paths, and intersecting its clip),
`onCanDrawPath` answers backup exactly when the clipped device-space
integer bounds have area exceeding 256*256 or the shape is cacheable with
more than 50 verbs; in every other case it answers yes. -/
theorem onCanDrawPath_backup_iff (dc : Bool) (args : CanDrawPathArgs)
    (ib : SkIRect)
    (hkey : args.fShape.hasUnstyledKey = true → dc = true)
    (hfill : args.fShape.styleIsSimpleFill = true)
    (hinv : args.fShape.inverseFilled = false)
    (hpersp : args.fViewMatrix.hasPerspective = false)
    (haa : args.fAAType = GrAAType.kCoverage)
    (hconic : args.fShape.path.conicWeightCnt = 0)
    (hint : SkIRect.intersect
        (args.fViewMatrix.mapRect args.fShape.path.getBounds).roundOut
        args.fClipConservativeBounds = some ib) :
    (onCanDrawPath dc args = CanDrawPath.kAsBackup ↔
      (ib.height * ib.width > 256 * 256 ∨
        (args.fShape.hasUnstyledKey = true ∧ args.fShape.path.countVerbs > 50))) ∧
    (onCanDrawPath dc args = CanDrawPath.kAsBackup ∨
      onCanDrawPath dc args = CanDrawPath.kYes) := by
  have h1 : (args.fShape.hasUnstyledKey && !dc) = false := by
    cases hk : args.fShape.hasUnstyledKey with
    | false => rfl
    | true => simp [hkey hk]
  have h2 : (!args.fShape.styleIsSimpleFill || args.fShape.inverseFilled ||
      args.fViewMatrix.hasPerspective ||
      decide (GrAAType.kCoverage ≠ args.fAAType)) = false := by
    simp [hfill, hinv, hpersp, ← haa]
  have h3 : decide (args.fShape.path.conicWeightCnt ≠ 0) = false := by
    simp [hconic]
  have hcd : onCanDrawPath dc args =
      (if ib.height * ib.width > 256 * 256 then CanDrawPath.kAsBackup
       else if args.fShape.hasUnstyledKey ∧ args.fShape.path.countVerbs > 50 then
         CanDrawPath.kAsBackup
       else CanDrawPath.kYes) := by
    unfold onCanDrawPath
    rw [h1, h2, h3]
    simp only [Bool.false_eq_true, if_false]
    rw [hint]
    show (if ib.height * ib.width > 256 * 256 then CanDrawPath.kAsBackup
      else if (args.fShape.hasUnstyledKey &&
          decide (args.fShape.path.countVerbs > 50)) = true then
        CanDrawPath.kAsBackup
      else CanDrawPath.kYes) = _
    by_cases hbig : ib.height * ib.width > 256 * 256
    · rw [if_pos hbig, if_pos hbig]
    · rw [if_neg hbig, if_neg hbig]
      by_cases hk : args.fShape.hasUnstyledKey = true
      · by_cases hv : args.fShape.path.countVerbs > 50
        · rw [if_pos (by simp [hk, hv]), if_pos ⟨hk, hv⟩]
        · rw [if_neg (by simp [hk, hv]), if_neg (by tauto)]
      · have hk' : args.fShape.hasUnstyledKey = false := by
          cases h : args.fShape.hasUnstyledKey with
          | false => rfl
          | true => exact absurd h hk
        rw [if_neg (by simp [hk']), if_neg (by tauto)]
  rw [hcd]
  by_cases hbig : ib.height * ib.width > 256 * 256
  · rw [if_pos hbig]
    exact ⟨⟨fun _ => Or.inl hbig, fun _ => rfl⟩, Or.inl rfl⟩
  · rw [if_neg hbig]
    by_cases hcomp : args.fShape.hasUnstyledKey = true ∧
        args.fShape.path.countVerbs > 50
    · rw [if_pos hcomp]
      exact ⟨⟨fun _ => Or.inr hcomp, fun _ => rfl⟩, Or.inl rfl⟩
    · rw [if_neg hcomp]
      refine ⟨⟨fun h => CanDrawPath.noConfusion h, fun h => ?_⟩, Or.inr rfl⟩
      rcases h with h | h
      · exact absurd h hbig
      · exact absurd h hcomp

/-- Witness for C8 at concrete inputs: a cacheable 60-verb path inside its
clip is sent to backup; a plain 4-verb path of the same size is accepted. -/
theorem onCanDrawPath_backup_iff_witness :
    onCanDrawPath true
      ⟨⟨⟨[(0, 0), (10, 10)], 60, 0, 0, true⟩, true, true, false⟩,
        SkMatrix.identity, ⟨0, 0, 100, 100⟩, GrAAType.kCoverage⟩ =
      CanDrawPath.kAsBackup ∧
    onCanDrawPath true
      ⟨⟨⟨[(0, 0), (10, 10)], 4, 0, 0, true⟩, false, true, false⟩,
        SkMatrix.identity, ⟨0, 0, 100, 100⟩, GrAAType.kCoverage⟩ =
      CanDrawPath.kYes := by
  have hi1 : SkIRect.intersect
      ((SkMatrix.identity.mapRect
        (⟨[(0, 0), (10, 10)], 60, 0, 0, true⟩ : SkPath).getBounds).roundOut)
      ⟨0, 0, 100, 100⟩ = some ⟨0, 0, 10, 10⟩ := by
    have hb : (SkMatrix.identity.mapRect
        (⟨[(0, 0), (10, 10)], 60, 0, 0, true⟩ : SkPath).getBounds).roundOut =
        ⟨0, 0, 10, 10⟩ := by
      norm_num [SkMatrix.mapRect, SkMatrix.mapPoint, SkMatrix.identity,
        SkPath.getBounds, qBBox, qBBoxAux, SkRect.roundOut]
    rw [hb]; decide
  have hi2 : SkIRect.intersect
      ((SkMatrix.identity.mapRect
        (⟨[(0, 0), (10, 10)], 4, 0, 0, true⟩ : SkPath).getBounds).roundOut)
      ⟨0, 0, 100, 100⟩ = some ⟨0, 0, 10, 10⟩ := by
    have hb : (SkMatrix.identity.mapRect
        (⟨[(0, 0), (10, 10)], 4, 0, 0, true⟩ : SkPath).getBounds).roundOut =
        ⟨0, 0, 10, 10⟩ := by
      norm_num [SkMatrix.mapRect, SkMatrix.mapPoint, SkMatrix.identity,
        SkPath.getBounds, qBBox, qBBoxAux, SkRect.roundOut]
    rw [hb]; decide
  constructor
  · exact (onCanDrawPath_backup_iff true
      ⟨⟨⟨[(0, 0), (10, 10)], 60, 0, 0, true⟩, true, true, false⟩,
        SkMatrix.identity, ⟨0, 0, 100, 100⟩, GrAAType.kCoverage⟩ ⟨0, 0, 10, 10⟩
      (fun _ => rfl) rfl rfl rfl rfl rfl hi1).1.mpr
      (Or.inr ⟨rfl, by norm_num [SkPath.countVerbs]⟩)
  · have h := (onCanDrawPath_backup_iff true
      ⟨⟨⟨[(0, 0), (10, 10)], 4, 0, 0, true⟩, false, true, false⟩,
        SkMatrix.identity, ⟨0, 0, 100, 100⟩, GrAAType.kCoverage⟩ ⟨0, 0, 10, 10⟩
      (fun h => by cases h) rfl rfl rfl rfl rfl hi2)
    rcases h.2 with hb | hy
    · exfalso
      have := h.1.mp hb
      rcases this with hbig | ⟨hk, _⟩
      · norm_num [SkIRect.height, SkIRect.width] at hbig
      · cases hk
    · exact hy

/-! ### Claim C10 -/

/-- Claim C10: a path whose rounded-out device bounds have empty
intersection with the conservative clip bounds is answered yes by
`onCanDrawPath` (provided it passes the structural gates), regardless of
its size or verb count: the large/complex backup checks are bypassed. -/
theorem onCanDrawPath_clipped_away_yes (dc : Bool) (args : CanDrawPathArgs)
    (hkey : args.fShape.hasUnstyledKey = true → dc = true)
    (hfill : args.fShape.styleIsSimpleFill = true)
    (hinv : args.fShape.inverseFilled = false)
    (hpersp : args.fViewMatrix.hasPerspective = false)
    (haa : args.fAAType = GrAAType.kCoverage)
    (hconic : args.fShape.path.conicWeightCnt = 0)
    (hint : SkIRect.intersect
        (args.fViewMatrix.mapRect args.fShape.path.getBounds).roundOut
        args.fClipConservativeBounds = none) :
    onCanDrawPath dc args = CanDrawPath.kYes := by
  have h1 : (args.fShape.hasUnstyledKey && !dc) = false := by
    cases hk : args.fShape.hasUnstyledKey with
    | false => rfl
    | true => simp [hkey hk]
  have h2 : (!args.fShape.styleIsSimpleFill || args.fShape.inverseFilled ||
      args.fViewMatrix.hasPerspective ||
      decide (GrAAType.kCoverage ≠ args.fAAType)) = false := by
    simp [hfill, hinv, hpersp, ← haa]
  have h3 : decide (args.fShape.path.conicWeightCnt ≠ 0) = false := by
    simp [hconic]
  unfold onCanDrawPath
  rw [h1, h2, h3]
  simp only [Bool.false_eq_true, if_false]
  rw [hint]

/-- Witness for C10: a 1000x1000-unit, 100-verb cacheable path whose bounds
lie entirely outside the clip is still answered yes. -/
theorem onCanDrawPath_clipped_away_yes_witness :
    onCanDrawPath true
      ⟨⟨⟨[(0, 0), (1000, 1000)], 100, 0, 0, true⟩, true, true, false⟩,
        SkMatrix.identity, ⟨2000, 2000, 3000, 3000⟩, GrAAType.kCoverage⟩ =
      CanDrawPath.kYes := by
  have hint : SkIRect.intersect
      ((SkMatrix.identity.mapRect
        (⟨[(0, 0), (1000, 1000)], 100, 0, 0, true⟩ : SkPath).getBounds).roundOut)
      ⟨2000, 2000, 3000, 3000⟩ = none := by
    have hb : (SkMatrix.identity.mapRect
        (⟨[(0, 0), (1000, 1000)], 100, 0, 0, true⟩ : SkPath).getBounds).roundOut =
        ⟨0, 0, 1000, 1000⟩ := by
      norm_num [SkMatrix.mapRect, SkMatrix.mapPoint, SkMatrix.identity,
        SkPath.getBounds, qBBox, qBBoxAux, SkRect.roundOut]
    rw [hb]; decide
  exact onCanDrawPath_clipped_away_yes true
    ⟨⟨⟨[(0, 0), (1000, 1000)], 100, 0, 0, true⟩, true, true, false⟩,
      SkMatrix.identity, ⟨2000, 2000, 3000, 3000⟩, GrAAType.kCoverage⟩
    (fun _ => rfl) rfl rfl rfl rfl rfl hint
